import Mathlib

/-!
Verification development for the browsertrix-crawler slice consisting of
`src/util/argParser.js` (the Configuration Resolver) and `src/util/storage.js`
(the Artifact Sync Client).  The JavaScript source is shallowly embedded:
strings are Lean `String`s (with hand-rolled, kernel-computable splitting and
replacement helpers mirroring the exact JS semantics), machine arithmetic is
`Nat`/`Int`, side effects (S3 puts, file reads, HTTP posts, redis pushes) are
reified into an explicit `Effect` trace, and fallible code returns `Except`.
-/

/-! ## Basic list/string utilities mirroring JavaScript primitives -/

/-- JS `String.prototype.replace` with a *string* pattern replaces only the
first occurrence of `pat` in the subject (`storage.js` relies on this in
`interpolateFilename`).  Operates on `List Char`. -/
def replaceFirst (pat rep : List Char) : List Char → List Char
  | [] => if pat.isPrefixOf ([] : List Char) then rep else []
  | c :: rest =>
    if pat.isPrefixOf (c :: rest) then rep ++ (c :: rest).drop pat.length
    else c :: replaceFirst pat rep rest

/-- Split a character list on a single separator character, JS
`String.prototype.split` semantics for a one-character separator:
`"".split(x) = [""]`, separators at the ends produce empty fields. -/
def splitCharAux (sep : Char) : List Char → List Char → List (List Char)
  | [], acc => [acc.reverse]
  | c :: rest, acc =>
    if c = sep then acc.reverse :: splitCharAux sep rest []
    else splitCharAux sep rest (c :: acc)

/-- JS `s.split(sep)` for the single-character separators used by the source
(`","`, `"\n"`, `"/"`). -/
def splitChar (sep : Char) (s : String) : List String :=
  (splitCharAux sep s.data []).map String.mk

/-- JS `s.startsWith(pre)`. -/
def startsWithStr (pre s : String) : Bool :=
  pre.data.isPrefixOf s.data

/-- JS `Array.prototype.join("/")` on a list of strings. -/
def joinSlash : List String → String
  | [] => ""
  | [s] => s
  | s :: rest => s ++ "/" ++ joinSlash rest

/-- Decimal/hexadecimal digit characters. -/
def digitChar (n : Nat) : Char :=
  match n with
  | 0 => '0' | 1 => '1' | 2 => '2' | 3 => '3' | 4 => '4'
  | 5 => '5' | 6 => '6' | 7 => '7' | 8 => '8' | 9 => '9'
  | 10 => 'a' | 11 => 'b' | 12 => 'c' | 13 => 'd' | 14 => 'e' | _ => 'f'

/-- Decimal digits of `n` (fuel-based so that the kernel can evaluate it). -/
def natToCharsAux : Nat → Nat → List Char
  | 0, _ => []
  | fuel + 1, n =>
    if n < 10 then [digitChar n]
    else natToCharsAux fuel (n / 10) ++ [digitChar (n % 10)]

/-- Decimal rendering of a natural number, as JS `JSON.stringify` renders a
non-negative integer. -/
def natToStr (n : Nat) : String := String.mk (natToCharsAux (n + 1) n)

/-! ## SHA-256 (the `createHash("sha256")` primitive used by `checksumFile`) -/

/-- Truncation to a 32-bit word. -/
def w32 (n : Nat) : Nat := n % 4294967296

/-- 32-bit right rotation (argument assumed `< 2^32`). -/
def rotr32 (n x : Nat) : Nat := w32 ((x >>> n) ||| (x <<< (32 - n)))

def bigSigma0 (x : Nat) : Nat := rotr32 2 x ^^^ rotr32 13 x ^^^ rotr32 22 x
def bigSigma1 (x : Nat) : Nat := rotr32 6 x ^^^ rotr32 11 x ^^^ rotr32 25 x
def smallSigma0 (x : Nat) : Nat := rotr32 7 x ^^^ rotr32 18 x ^^^ (x >>> 3)
def smallSigma1 (x : Nat) : Nat := rotr32 17 x ^^^ rotr32 19 x ^^^ (x >>> 10)

/-- SHA-256 round constants (fractional parts of the cube roots of the first
64 primes), written in decimal. -/
def sha256K : List Nat :=
  [1116352408, 1899447441, 3049323471, 3921009573, 961987163, 1508970993,
   2453635748, 2870763221, 3624381080, 310598401, 607225278, 1426881987,
   1925078388, 2162078206, 2614888103, 3248222580, 3835390401, 4022224774,
   264347078, 604807628, 770255983, 1249150122, 1555081692, 1996064986,
   2554220882, 2821834349, 2952996808, 3210313671, 3336571891, 3584528711,
   113926993, 338241895, 666307205, 773529912, 1294757372, 1396182291,
   1695183700, 1986661051, 2177026350, 2456956037, 2730485921, 2820302411,
   3259730800, 3345764771, 3516065817, 3600352804, 4094571909, 275423344,
   430227734, 506948616, 659060556, 883997877, 958139571, 1322822218,
   1537002063, 1747873779, 1955562222, 2024104815, 2227730452, 2361852424,
   2428436474, 2756734187, 3204031479, 3329325298]

/-- SHA-256 initial hash state (fractional parts of the square roots of the
first 8 primes), written in decimal. -/
def sha256H0 : List Nat :=
  [1779033703, 3144134277, 1013904242, 2773480762,
   1359893119, 2600822924, 528734635, 1541459225]

/-- Big-endian byte rendering of `v` in `n` bytes. -/
def toBytesBE (n v : Nat) : List Nat :=
  (List.range n).map (fun i => (v >>> ((n - 1 - i) * 8)) % 256)

/-- Group bytes into big-endian 32-bit words. -/
def bytesToWords : List Nat → List Nat
  | a :: b :: c :: d :: rest =>
    (((a * 256 + b) * 256 + c) * 256 + d) :: bytesToWords rest
  | _ => []

/-- SHA-256 message padding: `0x80`, zeros to 56 mod 64, 8-byte bit length. -/
def padMessage (msg : List Nat) : List Nat :=
  msg ++ [128] ++ List.replicate ((119 - msg.length % 64) % 64) 0 ++
    toBytesBE 8 (msg.length * 8)

/-- Split into 64-byte blocks (fuel-based for kernel computability). -/
def chunks64Aux : Nat → List Nat → List (List Nat)
  | 0, _ => []
  | _, [] => []
  | fuel + 1, c :: rest =>
    ((c :: rest).take 64) :: chunks64Aux fuel ((c :: rest).drop 64)

def chunks64 (l : List Nat) : List (List Nat) := chunks64Aux (l.length + 1) l

/-- Extend the 16 message-schedule words to 64. -/
def extendW (ws : List Nat) : List Nat :=
  (List.range 48).foldl
    (fun w i =>
      w ++ [w32 (smallSigma1 (w.getD (i + 14) 0) + w.getD (i + 9) 0 +
                 smallSigma0 (w.getD (i + 1) 0) + w.getD i 0)])
    ws

/-- One SHA-256 compression step over a 64-byte block. -/
def sha256compress (hs : List Nat) (block : List Nat) : List Nat :=
  let w := extendW (bytesToWords block)
  let st :=
    (List.range 64).foldl
      (fun (s : Nat × Nat × Nat × Nat × Nat × Nat × Nat × Nat) i =>
        let (a, b, c, d, e, f, g, h) := s
        let ch := (e &&& f) ^^^ ((e ^^^ 4294967295) &&& g)
        let maj := (a &&& b) ^^^ (a &&& c) ^^^ (b &&& c)
        let t1 := w32 (h + bigSigma1 e + ch + sha256K.getD i 0 + w.getD i 0)
        let t2 := w32 (bigSigma0 a + maj)
        (w32 (t1 + t2), a, b, c, w32 (d + t1), e, f, g))
      (hs.getD 0 0, hs.getD 1 0, hs.getD 2 0, hs.getD 3 0,
       hs.getD 4 0, hs.getD 5 0, hs.getD 6 0, hs.getD 7 0)
  let (a, b, c, d, e, f, g, h) := st
  [w32 (hs.getD 0 0 + a), w32 (hs.getD 1 0 + b), w32 (hs.getD 2 0 + c),
   w32 (hs.getD 3 0 + d), w32 (hs.getD 4 0 + e), w32 (hs.getD 5 0 + f),
   w32 (hs.getD 6 0 + g), w32 (hs.getD 7 0 + h)]

/-- SHA-256 digest of a byte sequence, as a list of 32 bytes. -/
def sha256bytes (msg : List Nat) : List Nat :=
  ((chunks64 (padMessage msg)).foldl sha256compress sha256H0).foldr
    (fun h acc => toBytesBE 4 h ++ acc) []

/-- Lower-case hex rendering of a byte list (`digest("hex")`). -/
def toHex (bs : List Nat) : String :=
  String.mk (bs.foldr (fun b acc => digitChar (b / 16) :: digitChar (b % 16) :: acc) [])

/-- Hex-encoded SHA-256 digest of a byte sequence. -/
def sha256hex (msg : List Nat) : String := toHex (sha256bytes msg)

/-! ## Data model of `argParser.js` -/

/-- A JS value that is either a string or an array of strings (yargs options
such as `seeds`, `waitUntil` and `behaviors` can arrive in either shape). -/
inductive StrOrList where
  | str : String → StrOrList
  | list : List String → StrOrList
deriving DecidableEq

/-- The `--include` / `--scopeIncludeRx` option: absent, a string, or an
array. -/
inductive IncludeVal where
  | undef : IncludeVal
  | str : String → IncludeVal
  | arr : List String → IncludeVal
deriving DecidableEq

/-- JS truthiness test `argv.include && (typeof(argv.include) === "string" ||
argv.include.length)` from `argParser.js` line 449: an absent value and the
empty string are falsy, an array passes iff it is non-empty. -/
def includeTruthy : IncludeVal → Bool
  | .undef => false
  | .str s => s ≠ ""
  | .arr l => l ≠ []

/-- Concurrency mode chosen from the worker count (`argParser.js` 409-415):
`ReuseWindowConcurrency` for more than one worker, `Cluster.CONCURRENCY_PAGE`
otherwise. -/
inductive Concurrency where
  | reuseWindow : Concurrency
  | page : Concurrency
deriving DecidableEq

/-- Ambient environment of the resolver: the current ISO-8601 timestamp
(`new Date().toISOString()`), `os.hostname()`, and the known puppeteer device
names. -/
structure Env where
  tsRaw : String
  hostname : String
  devices : List String
deriving DecidableEq

/-- The raw argument object handed to `validateArgs` (after yargs defaulting).
`seedFileContent` models the content `fs.readFileSync(argv.seedFile)` would
return — `none` when no `--seedFile` was given. -/
structure Argv where
  seeds : StrOrList
  seedFileContent : Option String
  workers : Nat
  crawlId : String
  newContext : Option String
  waitUntil : StrOrList
  timeout : Nat
  scopeType : Option String
  includeRx : IncludeVal
  logging : String
  behaviors : StrOrList
  behaviorTimeout : Nat
  screenshot : String
  mobileDevice : Option String
  netIdleWait : Int
  collection : String
  statsFilename : Option String
  cwd : String
deriving DecidableEq

/-- The composed behavior-options object (`behaviorOpts` in the source): the
enabled behavior names (each mapped to `true`), the optional `timeout`
reserved key (milliseconds), and whether the `log` reserved key carries the
behavior logging hook (`BEHAVIOR_LOG_FUNC`). -/
structure BehaviorOpts where
  names : List String
  timeout : Option Nat
  log : Bool
deriving DecidableEq

/-- The resolved configuration produced by a successful `validateArgs` run.
Console output (`console.warn` / deprecation and filtering notes) is reified
into `warnings`. -/
structure Config where
  collection : String
  timeout : Nat
  waitUntil : List String
  screenshot : StrOrList
  logging : List String
  behaviorOpts : BehaviorOpts
  behaviorsLogDebug : Bool
  behaviorTimeout : Nat
  newContext : Concurrency
  emulateDevice : Option String
  seeds : StrOrList
  netIdleWait : Int
  scopeType : Option String
  statsFilename : Option String
  warnings : List String
deriving DecidableEq

/-! ## Resolution steps of `validateArgs` (`argParser.js` 349-480) -/

/-- Strip the characters removed from the ISO timestamp by
`.replace(/[:TZz.-]/g, "")` in `interpolateFilename`. -/
def stripTsChars (l : List Char) : List Char :=
  l.filter (fun c => !(c = ':' || c = 'T' || c = 'Z' || c = 'z' || c = '.' || c = '-'))

/-- JS `s.slice(-14)`: the last (up to) 14 characters. -/
def sliceLast14 (l : List Char) : List Char := l.drop (l.length - 14)

/-- `interpolateFilename` from `storage.js` 153-159: substitute `@ts` (the
stripped timestamp), `@hostname`, `@hostsuffix` (last 14 hostname chars) and
`@id` (the crawl id), each via JS single-occurrence `String.replace`. -/
def interpolateFilename (env : Env) (filename crawlId : String) : String :=
  let f1 := replaceFirst ("@ts".data) (stripTsChars env.tsRaw.data) filename.data
  let f2 := replaceFirst ("@hostname".data) env.hostname.data f1
  let f3 := replaceFirst ("@hostsuffix".data) (sliceLast14 env.hostname.data) f2
  let f4 := replaceFirst ("@id".data) crawlId.data f3
  String.mk f4

/-- JS `\w` (ASCII word character). -/
def isWordChar (c : Char) : Bool := c.isAlphanum || c = '_'

/-- The collection-name validity test `collection.search(/^[\w][\w-]*$/) !== -1`
(`argParser.js` 353): non-empty, first character a word character, the rest
word characters or hyphens. -/
def validCollection (s : String) : Bool :=
  match s.data with
  | [] => false
  | c :: rest => isWordChar c && rest.all (fun d => isWordChar d || d = '-')

/-- The fatal message thrown for an invalid collection name. -/
def invalidCollectionMsg (c : String) : String :=
  "\n" ++ c ++ " is an invalid collection name. Please supply a collection name only using alphanumeric characters and the following characters [_ - ]\n"

/-- Modelled from the spec: `WAIT_UNTIL_OPTS` lives in `util/constants.js`,
which is not part of this slice; the spec fixes the four known browser wait
conditions. -/
def WAIT_UNTIL_OPTS : List String :=
  ["load", "domcontentloaded", "networkidle0", "networkidle2"]

/-- Modelled from the spec: the fixed screenshot kinds of
`util/screenshots.js` (`view, thumbnail, fullPage`, per the CLI help text in
`argParser.js`). -/
def screenshotTypes : List String := ["view", "thumbnail", "fullPage"]

/-- `waitUntil` / `behaviors` normalization: a string is split on commas, an
already-structured list is kept (`argParser.js` 362-364 and 390-392). -/
def splitOrKeep : StrOrList → List String
  | .str s => splitChar ',' s
  | .list l => l

/-- Screenshot option filtering (`argParser.js` 373-383): when the option is
truthy (a non-empty string) it is split on commas and intersected with the
known kinds, each unknown token produces a console note; otherwise the value
is left as-is. Returns the resolved value and the notes. -/
def resolveScreenshot (s : String) : StrOrList × List String :=
  if s ≠ "" then
    let passed := splitChar ',' s
    (.list (passed.filter (fun e => screenshotTypes.contains e)),
     (passed.filter (fun e => !screenshotTypes.contains e)).map
       (fun e => e ++ " not found in screenshotTypes"))
  else (.str s, [])

/-- Behavior options composition (`argParser.js` 389-402): behavior names map
to `true`; a truthy behavior timeout is stored, converted to ms, under the
reserved `timeout` key; the `log` hook is attached when the logging channels
contain `behaviors`, or else when they contain `behaviors-debug`. -/
def resolveBehaviorOpts (a : Argv) : BehaviorOpts :=
  let logging := splitChar ',' a.logging
  { names := splitOrKeep a.behaviors
    timeout := if a.behaviorTimeout ≠ 0 then some (a.behaviorTimeout * 1000) else none
    log := logging.contains ("behaviors") || logging.contains ("behaviors-debug") }

/-- The `behaviorsLogDebug` flag is set only in the `else if` branch of
`argParser.js` 397-402, i.e. when the logging channels contain
`behaviors-debug` but not `behaviors`. -/
def resolveBehaviorsLogDebug (a : Argv) : Bool :=
  let logging := splitChar ',' a.logging
  !(logging.contains ("behaviors")) && logging.contains ("behaviors-debug")

/-- Seed-file merge (`argParser.js` 424-437): with a seed file present, a
scalar seed flag is promoted to a one-element list and the file's non-empty
lines are appended in file order. -/
def promoteSeeds : StrOrList → List String
  | .str s => [s]
  | .list l => l

def resolveSeeds (a : Argv) : StrOrList :=
  match a.seedFileContent with
  | none => a.seeds
  | some content =>
    .list (promoteSeeds a.seeds ++ (splitChar '\n' content).filter (fun s => s ≠ ""))

/-- Network-idle-wait heuristic (`argParser.js` 439-446): the `-1` sentinel
resolves to 15 seconds for the single-page scope types and 2 otherwise; an
explicit value is kept. -/
def resolveNetIdleWait (a : Argv) : Int :=
  if a.netIdleWait = -1 then
    if a.scopeType = some "page" ∨ a.scopeType = some "page-spa" then 15 else 2
  else a.netIdleWait

def netIdleWarnings (a : Argv) : List String :=
  if a.netIdleWait = -1 then ["Set netIdleWait seconds"] else []

/-- The console warning emitted when an include regex overrides a named scope
type (paraphrased from `argParser.js` 451). -/
def scopeOverrideWarning : String :=
  "You have specified a --scopeType and a --scopeIncludeRx / --include regex. The custom scope regex will take precedence, overriding the scopeType"

/-- Scope precedence (`argParser.js` 448-454): when the include option is
truthy and a scope type other than `custom` was requested, the scope type is
overridden to `custom`; an unset scope type is left unset. -/
def resolveScopeType (a : Argv) : Option String :=
  if includeTruthy a.includeRx then
    match a.scopeType with
    | some st => if st ≠ "custom" then some "custom" else some st
    | none => none
  else a.scopeType

def scopeWarningList (a : Argv) : List String :=
  if includeTruthy a.includeRx then
    match a.scopeType with
    | some st => if st ≠ "custom" then [scopeOverrideWarning] else []
    | none => []
  else []

def deprecationWarnings (a : Argv) : List String :=
  if a.newContext.isSome then
    ["Note: The newContext argument is deprecated in 0.8.0. Values passed to this option will be ignored"]
  else []

/-- `path.resolve(argv.cwd, argv.statsFilename)` for the cases arising here:
an absolute filename is kept, a relative one is joined onto the working
directory. -/
def pathResolve (cwd f : String) : String :=
  if startsWithStr ("/") f then f else cwd ++ "/" ++ f

def resolveStatsFilename (a : Argv) : Option String :=
  match a.statsFilename with
  | none => none
  | some f => if f ≠ "" then some (pathResolve a.cwd f) else some f

/-- All non-failing transformations of `validateArgs`, in source order,
assembled into the resolved configuration. -/
def buildConfig (env : Env) (a : Argv) : Config :=
  { collection := interpolateFilename env a.collection a.crawlId
    timeout := a.timeout * 1000
    waitUntil := splitOrKeep a.waitUntil
    screenshot := (resolveScreenshot a.screenshot).1
    logging := splitChar ',' a.logging
    behaviorOpts := resolveBehaviorOpts a
    behaviorsLogDebug := resolveBehaviorsLogDebug a
    behaviorTimeout := if a.behaviorTimeout ≠ 0 then a.behaviorTimeout * 1000 else a.behaviorTimeout
    newContext := if a.workers > 1 then .reuseWindow else .page
    emulateDevice := a.mobileDevice
    seeds := resolveSeeds a
    netIdleWait := resolveNetIdleWait a
    scopeType := resolveScopeType a
    statsFilename := resolveStatsFilename a
    warnings := (resolveScreenshot a.screenshot).2 ++ deprecationWarnings a ++
      netIdleWarnings a ++ scopeWarningList a }

/-- `validateArgs` (`argParser.js` 349-480): interpolate the collection name,
check it, then check every `waitUntil` token and (when given) the mobile
device name; on success the fully resolved configuration is returned. Each
`throw new Error(...)` becomes `Except.error`. -/
def validateArgs (env : Env) (a : Argv) : Except String Config :=
  if validCollection (interpolateFilename env a.collection a.crawlId) then
    if (splitOrKeep a.waitUntil).any (fun o => !(WAIT_UNTIL_OPTS.contains o)) then
      .error ("Invalid waitUntil option, must be one of: " ++ joinSlash WAIT_UNTIL_OPTS)
    else
      match a.mobileDevice with
      | some d =>
        if env.devices.contains d then .ok (buildConfig env a)
        else .error ("Unknown device: " ++ d)
      | none => .ok (buildConfig env a)
  else .error (invalidCollectionMsg (interpolateFilename env a.collection a.crawlId))

/-! ## Data model of `storage.js` -/

/-- File-system snapshot: byte content per path. -/
def FS := String → Option (List Nat)

/-- An uploaded-artifact descriptor, the return value of `uploadFile`
(`storage.js` 70): `{"path": targetFilename, "hash": finalHash, "bytes": size}`. -/
structure Resource where
  path : String
  hash : String
  bytes : Nat
deriving DecidableEq

/-- The side effects of the Artifact Sync Client, reified as a trace. -/
inductive Effect where
  | fPutObject (bucket key src : String)
  | readFileForHash (src : String)
  | statFile (src : String)
  | httpPost (url body : String)
  | redisConnect (url : String)
  | rpush (key value : String)
deriving DecidableEq

/-- The `S3StorageSync` client state (constructor-established fields used by
`uploadFile` / `uploadCollWACZ`; `objectPfx` and `fullPfx` model the
`objectPrefix` / `fullPrefix` fields of the source). -/
structure S3Storage where
  bucketName : String
  objectPfx : String
  fullPfx : String
  userId : Option String
  crawlId : String
  webhookUrl : Option String
deriving DecidableEq

/-- `checksumFile("sha256", path)` (`storage.js` 143-151): the file is
streamed chunk by chunk into the hash (`hash.update`) and the final digest is
hex-encoded; incrementally hashing the chunks is hashing their
concatenation. -/
def checksumFile (chunks : List (List Nat)) : String :=
  sha256hex (chunks.foldl (fun acc c => acc ++ c) [])

/-- The trace of `uploadFile` (`storage.js` 59-71): the S3 put, then the
independent second read of the source file for the digest, then the `stat`
for the size. -/
def uploadEffects (st : S3Storage) (src target : String) : List Effect :=
  [.fPutObject st.bucketName (st.objectPfx ++ target) src,
   .readFileForHash src,
   .statFile src]

/-- `uploadFile(srcFilename, targetFilename)` (`storage.js` 59-71). -/
def uploadFile (st : S3Storage) (fs : FS) (src target : String) :
    Except String (List Effect × Resource) :=
  match fs src with
  | none => .error ("cannot read file: " ++ src)
  | some content =>
    .ok (uploadEffects st src target,
         { path := target, hash := checksumFile [content], bytes := content.length })

/-- The webhook notification body (`storage.js` 82-93). `user` is the
optional `userId`; JS `JSON.stringify` omits the key when it is undefined. -/
structure WebhookBody where
  id : String
  user : Option String
  filename : String
  hash : String
  size : Nat
  completed : Bool
deriving DecidableEq

def mkWebhookBody (st : S3Storage) (target : String) (res : Resource)
    (completed : Bool) : WebhookBody :=
  { id := st.crawlId
    user := st.userId
    filename := st.fullPfx ++ target
    hash := res.hash
    size := res.bytes
    completed := completed }

/-- JSON string escaping as performed by `JSON.stringify` on the characters
relevant here. -/
def jsonEscapeChar (c : Char) : List Char :=
  if c = '"' then ['\\', '"']
  else if c = '\\' then ['\\', '\\']
  else if c = '\n' then ['\\', 'n']
  else if c = '\r' then ['\\', 'r']
  else if c = '\t' then ['\\', 't']
  else [c]

def jsonStr (s : String) : String :=
  String.mk ('"' :: (s.data.foldr (fun c acc => jsonEscapeChar c ++ acc) ['"']))

/-- `JSON.stringify(body)` for the notification body, with insertion-order
keys and an omitted `user` key when the user id is undefined. -/
def bodyJson (b : WebhookBody) : String :=
  "\x7b\"id\":" ++ jsonStr b.id ++
  (match b.user with
   | some u => ",\"user\":" ++ jsonStr u
   | none => "") ++
  ",\"filename\":" ++ jsonStr b.filename ++
  ",\"hash\":" ++ jsonStr b.hash ++
  ",\"size\":" ++ natToStr b.size ++
  ",\"completed\":" ++ (if b.completed then "true" else "false") ++ "\x7d"

/-- The fatal message for a malformed redis webhook URL (`storage.js` 102). -/
def redisFormatMsg : String :=
  "redis webhook url must be in format: redis://<host>:<port>/<db>/<key>"

/-- `uploadCollWACZ(srcFilename, targetFilename, completed)` (`storage.js`
77-108): upload, then, when a webhook URL is configured, dispatch by scheme —
an HTTP POST for `http(s)://`, a tail push onto the key named by the fifth
`/`-segment for `redis://` (after the five-segment format check), and nothing
for any other scheme. Returns the effect trace and the outcome. -/
def uploadCollWACZ (st : S3Storage) (fs : FS) (src target : String)
    (completed : Bool) : List Effect × Except String Unit :=
  match uploadFile st fs src target with
  | .error e => ([], .error e)
  | .ok (effs, resource) =>
    match st.webhookUrl with
    | none => (effs, .ok ())
    | some url =>
      let body := mkWebhookBody st target resource completed
      if startsWithStr ("http://") url || startsWithStr ("https://") url then
        (effs ++ [.httpPost url (bodyJson body)], .ok ())
      else if startsWithStr ("redis://") url then
        let parts := splitChar '/' url
        if parts.length ≠ 5 then (effs, .error redisFormatMsg)
        else
          (effs ++ [.redisConnect (joinSlash (parts.take 4)),
                    .rpush (parts.getD 4 "") (bodyJson body)], .ok ())
      else (effs, .ok ())

/-- Queue operations within an effect trace. -/
def isQueueOp : Effect → Bool
  | .redisConnect _ => true
  | .rpush _ _ => true
  | _ => false

def isRPush : Effect → Bool
  | .rpush _ _ => true
  | _ => false

def isHttpPost : Effect → Bool
  | .httpPost _ _ => true
  | _ => false

def countRPush (l : List Effect) : Nat := (l.filter isRPush).length

/-! ## Concrete fixtures used by witnesses and counterexamples -/

/-- A concrete resolver environment: a fixed clock instant, host name and
device table. -/
def specEnv : Env :=
  { tsRaw := "2022-03-15T12:34:56.789Z", hostname := "testhost", devices := ["iPhone X"] }

/-- The yargs defaults of `argParser.js` as a concrete `Argv`. -/
def baseArgv : Argv :=
  { seeds := .list []
    seedFileContent := none
    workers := 1
    crawlId := "testhost"
    newContext := none
    waitUntil := .str "load"
    timeout := 90
    scopeType := none
    includeRx := .undef
    logging := "stats"
    behaviors := .str "autoplay,autofetch,autoscroll,siteSpecific"
    behaviorTimeout := 90
    screenshot := ""
    mobileDevice := none
    netIdleWait := -1
    collection := "crawl-@ts"
    statsFilename := none
    cwd := "/crawls" }

def c1Argv : Argv := { baseArgv with includeRx := .str "https://example.com/path/" }

def c1wArgv : Argv :=
  { baseArgv with includeRx := .str "https://example.com/path/", scopeType := some "host" }

def c4BadArgv : Argv := { baseArgv with collection := "my coll" }

def c5Argv : Argv := { baseArgv with logging := "stats,behaviors,behaviors-debug" }

def c5wArgv : Argv := { baseArgv with logging := "behaviors-debug" }

def c8Argv : Argv := { baseArgv with scopeType := some "page" }

def c9Argv : Argv :=
  { baseArgv with
      seeds := .list ["https://s1.example/", "https://s2.example/"]
      seedFileContent := some "https://a.example/\n\nhttps://b.example/\n" }

def demoContent : List Nat := [97, 98, 99]

def demoFS : FS := fun p => if p = "/crawls/test.wacz" then some demoContent else none

def demoStorage : S3Storage :=
  { bucketName := "mybucket"
    objectPfx := "data/"
    fullPfx := "https://store.example.com/mybucket/data/"
    userId := some "user1"
    crawlId := "crawl1"
    webhookUrl := some "redis://h:6379/0/mykey" }

def demoStorageBad : S3Storage := { demoStorage with webhookUrl := some "redis://h:6379/0" }

def demoStorageFtp : S3Storage := { demoStorage with webhookUrl := some "ftp://example.com/x" }

set_option maxRecDepth 100000

/-- FIPS 180 test vector anchoring the embedding: SHA-256 of `"abc"`. -/
theorem sha256hex_abc :
    sha256hex [97, 98, 99] =
      "ba7816bf8f01cfea414140de5dae2223b00361a396177a9cb410ff61f20015ad" := by
  decide

/-- Second anchor: SHA-256 of the empty byte sequence. -/
theorem sha256hex_empty :
    sha256hex [] =
      "e3b0c44298fc1c149afbf4c8996fb92427ae41e4649b934ca495991b7852b855" := by
  decide

/-! ## Helper lemmas -/

/-- A successful resolution returns exactly the assembled configuration. -/
theorem validateArgs_ok (env : Env) (a : Argv) (cfg : Config)
    (h : validateArgs env a = Except.ok cfg) : cfg = buildConfig env a := by
  unfold validateArgs at h
  split at h
  · split at h
    · exact Except.noConfusion h
    · split at h
      · split at h
        · exact (Except.ok.inj h).symm
        · exact Except.noConfusion h
      · exact (Except.ok.inj h).symm
  · exact Except.noConfusion h

/-- A successful resolution implies the interpolated collection name passed
the validity check. -/
theorem validateArgs_validCollection (env : Env) (a : Argv) (cfg : Config)
    (h : validateArgs env a = Except.ok cfg) :
    validCollection (interpolateFilename env a.collection a.crawlId) = true := by
  unfold validateArgs at h
  split at h
  next hv => exact hv
  next hv => exact Except.noConfusion h

theorem foldl_append_eq_join (l : List (List Nat)) (acc : List Nat) :
    l.foldl (fun a c => a ++ c) acc = acc ++ l.flatten := by
  induction l generalizing acc with
  | nil => simp
  | cons x xs ih => simp [ih, List.append_assoc]

/-- Streaming a file through the hash in chunks depends only on the
concatenated content, not on the chunk boundaries. -/
theorem checksumFile_chunking (c1 c2 : List (List Nat)) (h : c1.flatten = c2.flatten) :
    checksumFile c1 = checksumFile c2 := by
  unfold checksumFile
  rw [foldl_append_eq_join, foldl_append_eq_join, h]

/-- `replaceFirst` with a pattern starting in `@` walks untouched over an
`@`-free prefix. -/
theorem replaceFirst_atFree_append (p rep : List Char) (X t : List Char)
    (hX : '@' ∉ X) :
    replaceFirst ('@' :: p) rep (X ++ t) = X ++ replaceFirst ('@' :: p) rep t := by
  induction X with
  | nil => rfl
  | cons c X ih =>
    have hc : ('@' == c) = false :=
      beq_eq_false_iff_ne.mpr (fun e => hX (e ▸ List.mem_cons_self c X))
    have hX2 : '@' ∉ X := fun m => hX (List.mem_cons_of_mem c m)
    have hpre : (('@' :: p).isPrefixOf (c :: (X ++ t))) = false := by
      show (('@' == c) && p.isPrefixOf (X ++ t)) = false
      rw [hc, Bool.false_and]
    calc replaceFirst ('@' :: p) rep ((c :: X) ++ t)
        = c :: replaceFirst ('@' :: p) rep (X ++ t) := by
          show (if ('@' :: p).isPrefixOf (c :: (X ++ t)) then _ else _) = _
          rw [hpre]
          simp
      _ = c :: (X ++ replaceFirst ('@' :: p) rep t) := by rw [ih hX2]
      _ = (c :: X) ++ replaceFirst ('@' :: p) rep t := rfl

/-! ## Claim theorems -/

/-- C7: for every input the user-facing timeout (seconds) is stored in the
resolved configuration in milliseconds, multiplied by 1000 exactly once. -/
theorem c7_timeout_ms (env : Env) (a : Argv) (cfg : Config)
    (h : validateArgs env a = Except.ok cfg) : cfg.timeout = a.timeout * 1000 := by
  rw [validateArgs_ok env a cfg h]
  rfl

/-- C7 witness: `timeout=90` resolves to 90000 ms. -/
theorem c7_timeout_ms_witness :
    validateArgs specEnv baseArgv = Except.ok (buildConfig specEnv baseArgv) ∧
    (buildConfig specEnv baseArgv).timeout = 90000 := by
  have h : validateArgs specEnv baseArgv = Except.ok (buildConfig specEnv baseArgv) := rfl
  refine ⟨h, ?_⟩
  have h2 := c7_timeout_ms specEnv baseArgv (buildConfig specEnv baseArgv) h
  rw [h2]
  rfl

/-- C8: with the `netIdleWait` sentinel `-1`, the resolved value is 15 for the
requested scope types `page` and `page-spa` and 2 for every other (including
unset) scope type; an explicit non-sentinel value is kept unchanged. -/
theorem c8_netIdleWait (env : Env) (a : Argv) (cfg : Config)
    (h : validateArgs env a = Except.ok cfg) :
    (a.netIdleWait = -1 →
      ((a.scopeType = some "page" ∨ a.scopeType = some "page-spa") →
        cfg.netIdleWait = 15) ∧
      (¬(a.scopeType = some "page" ∨ a.scopeType = some "page-spa") →
        cfg.netIdleWait = 2)) ∧
    (a.netIdleWait ≠ -1 → cfg.netIdleWait = a.netIdleWait) := by
  rw [validateArgs_ok env a cfg h]
  have hfield : (buildConfig env a).netIdleWait = resolveNetIdleWait a := rfl
  rw [hfield]
  unfold resolveNetIdleWait
  constructor
  · intro hsent
    rw [if_pos hsent]
    constructor
    · intro hp; rw [if_pos hp]
    · intro hp; rw [if_neg hp]
  · intro hsent; rw [if_neg hsent]

/-- C8 witness: `netIdleWait` unset and `scopeType=page` resolves to 15. -/
theorem c8_netIdleWait_witness :
    validateArgs specEnv c8Argv = Except.ok (buildConfig specEnv c8Argv) ∧
    c8Argv.netIdleWait = -1 ∧
    (buildConfig specEnv c8Argv).netIdleWait = 15 := by
  have h : validateArgs specEnv c8Argv = Except.ok (buildConfig specEnv c8Argv) := rfl
  refine ⟨h, rfl, ?_⟩
  exact ((c8_netIdleWait specEnv c8Argv (buildConfig specEnv c8Argv) h).1 rfl).1
    (Or.inl rfl)

/-- C9: with a seed file present, the final seed list is the flag seeds (a
scalar first promoted to a one-element list) followed by the file's non-empty
lines in file order; every flag seed precedes every file seed and blank lines
are skipped. -/
theorem c9_seed_merge (env : Env) (a : Argv) (cfg : Config) (content : String)
    (hfile : a.seedFileContent = some content)
    (h : validateArgs env a = Except.ok cfg) :
    cfg.seeds = StrOrList.list (promoteSeeds a.seeds ++
      (splitChar '\n' content).filter (fun s => s ≠ "")) := by
  rw [validateArgs_ok env a cfg h]
  show resolveSeeds a = _
  unfold resolveSeeds
  rw [hfile]

/-- C9 witness: two flag seeds followed by the two non-empty seed-file lines,
blank line skipped. -/
theorem c9_seed_merge_witness :
    validateArgs specEnv c9Argv = Except.ok (buildConfig specEnv c9Argv) ∧
    (buildConfig specEnv c9Argv).seeds =
      StrOrList.list ["https://s1.example/", "https://s2.example/",
                      "https://a.example/", "https://b.example/"] := by
  have h : validateArgs specEnv c9Argv = Except.ok (buildConfig specEnv c9Argv) := rfl
  refine ⟨h, ?_⟩
  have h2 := c9_seed_merge specEnv c9Argv (buildConfig specEnv c9Argv)
    "https://a.example/\n\nhttps://b.example/\n" rfl h
  rw [h2]
  rfl

/-- C1 counterexample: with a non-empty include pattern but no requested
scope type, resolution succeeds and the resolved scopeType stays unset rather
than becoming `custom`. -/
theorem c1_scope_counterexample :
    includeTruthy c1Argv.includeRx = true ∧
    (validateArgs specEnv c1Argv).map (fun c => c.scopeType) = Except.ok none :=
  ⟨rfl, rfl⟩

/-- C1 (amended): when an include pattern is present and non-empty and a
scope type was explicitly requested, the resolved scopeType is `custom`, with
the override warning emitted whenever the requested type was not already
`custom`; an unset scope type is left unset. -/
theorem c1_scope_amended (env : Env) (a : Argv) (cfg : Config)
    (h : validateArgs env a = Except.ok cfg)
    (hinc : includeTruthy a.includeRx = true)
    (hst : a.scopeType.isSome = true) :
    cfg.scopeType = some "custom" ∧
    (a.scopeType ≠ some "custom" → scopeOverrideWarning ∈ cfg.warnings) := by
  rw [validateArgs_ok env a cfg h]
  obtain ⟨st, hsome⟩ := Option.isSome_iff_exists.mp hst
  constructor
  · show resolveScopeType a = some "custom"
    unfold resolveScopeType
    rw [hinc, hsome]
    by_cases hc : st = "custom"
    · subst hc; simp
    · simp [hc]
  · intro hne
    have hstne : st ≠ "custom" := by
      intro e; exact hne (by rw [hsome, e])
    show scopeOverrideWarning ∈ (buildConfig env a).warnings
    have hw : scopeWarningList a = [scopeOverrideWarning] := by
      unfold scopeWarningList
      rw [hinc, hsome]
      simp [hstne]
    have hwarn : (buildConfig env a).warnings =
        (resolveScreenshot a.screenshot).2 ++ deprecationWarnings a ++
          netIdleWarnings a ++ scopeWarningList a := rfl
    rw [hwarn, hw]
    simp

/-- C1 witness: include pattern plus requested `scopeType=host` resolves to
`custom` with the override warning. -/
theorem c1_scope_witness :
    validateArgs specEnv c1wArgv = Except.ok (buildConfig specEnv c1wArgv) ∧
    (buildConfig specEnv c1wArgv).scopeType = some "custom" ∧
    scopeOverrideWarning ∈ (buildConfig specEnv c1wArgv).warnings := by
  have h : validateArgs specEnv c1wArgv = Except.ok (buildConfig specEnv c1wArgv) := rfl
  have h2 := c1_scope_amended specEnv c1wArgv (buildConfig specEnv c1wArgv) h rfl rfl
  exact ⟨h, h2.1, h2.2 (by decide)⟩

/-- C4: collection-name interpolation is applied exactly once and strictly
before the name-validity check; an interpolated name matching the word
pattern proceeds, any other interpolated name aborts resolution with the
descriptive fatal error. -/
theorem c4_collection_validation (env : Env) (a : Argv) :
    (validCollection (interpolateFilename env a.collection a.crawlId) = false →
      validateArgs env a =
        Except.error (invalidCollectionMsg
          (interpolateFilename env a.collection a.crawlId))) ∧
    (∀ cfg : Config, validateArgs env a = Except.ok cfg →
      cfg.collection = interpolateFilename env a.collection a.crawlId ∧
      validCollection cfg.collection = true) := by
  constructor
  · intro hbad
    unfold validateArgs
    rw [hbad]
    simp
  · intro cfg h
    have hv := validateArgs_validCollection env a cfg h
    have hc := validateArgs_ok env a cfg h
    subst hc
    exact ⟨rfl, hv⟩

/-- C4 witness: the invalid interpolated name `my coll` aborts resolution
with the fatal name error. -/
theorem c4_collection_validation_witness :
    validateArgs specEnv c4BadArgv =
      Except.error (invalidCollectionMsg
        (interpolateFilename specEnv c4BadArgv.collection c4BadArgv.crawlId)) :=
  (c4_collection_validation specEnv c4BadArgv).1 rfl

/-- C5 counterexample: with both `behaviors` and `behaviors-debug` among the
logging channels the debug flag is not set (the `else if` branch is
skipped), refuting the claim that `behaviors-debug` always sets it. -/
theorem c5_behavior_log_counterexample :
    (splitChar ',' c5Argv.logging).contains ("behaviors") = true ∧
    (splitChar ',' c5Argv.logging).contains ("behaviors-debug") = true ∧
    (validateArgs specEnv c5Argv).map
      (fun c => (c.behaviorOpts.log, c.behaviorsLogDebug)) =
      Except.ok (true, false) :=
  ⟨rfl, rfl, rfl⟩

/-- C5 (amended): the behavior-options structure carries the `log` hook
whenever the logging channels include `behaviors` or `behaviors-debug`, and
the debug flag is set exactly when the channels include `behaviors-debug` but
not `behaviors` (with both present, only the hook is attached). -/
theorem c5_behavior_log_amended (env : Env) (a : Argv) (cfg : Config)
    (h : validateArgs env a = Except.ok cfg) :
    ((cfg.logging.contains ("behaviors") ||
        cfg.logging.contains ("behaviors-debug")) = true →
      cfg.behaviorOpts.log = true) ∧
    (cfg.behaviorsLogDebug = true ↔
      (cfg.logging.contains ("behaviors-debug") = true ∧
        cfg.logging.contains ("behaviors") = false)) := by
  rw [validateArgs_ok env a cfg h]
  have hlog : (buildConfig env a).logging = splitChar ',' a.logging := rfl
  have hdbg : (buildConfig env a).behaviorsLogDebug = resolveBehaviorsLogDebug a := rfl
  rw [hlog, hdbg]
  constructor
  · intro hc
    exact hc
  · have hr : resolveBehaviorsLogDebug a =
        (!(splitChar ',' a.logging).contains ("behaviors") &&
          (splitChar ',' a.logging).contains ("behaviors-debug")) := rfl
    rw [hr]
    generalize (splitChar ',' a.logging).contains ("behaviors") = cb
    generalize (splitChar ',' a.logging).contains ("behaviors-debug") = cbd
    cases cb <;> cases cbd <;> decide

/-- C5 witness: `behaviors-debug` alone attaches the hook and sets the debug
flag. -/
theorem c5_behavior_log_witness :
    validateArgs specEnv c5wArgv = Except.ok (buildConfig specEnv c5wArgv) ∧
    (buildConfig specEnv c5wArgv).behaviorOpts.log = true ∧
    (buildConfig specEnv c5wArgv).behaviorsLogDebug = true := by
  have h : validateArgs specEnv c5wArgv = Except.ok (buildConfig specEnv c5wArgv) := rfl
  have h2 := c5_behavior_log_amended specEnv c5wArgv (buildConfig specEnv c5wArgv) h
  exact ⟨h, h2.1 (by rfl), h2.2.mpr ⟨rfl, rfl⟩⟩

/-- C2: for a `redis://` webhook URL the dispatch requires the URL to split
on `/` into exactly five segments — any other count yields the format error
with no queue operation in the trace — and on the five-segment form exactly
one JSON-encoded notification (id, user, filename, hash, size, completed) is
appended to the tail of the list named by the fifth segment. -/
theorem c2_redis_webhook (st : S3Storage) (fs : FS) (src target : String)
    (completed : Bool) (url : String) (content : List Nat)
    (hurl : st.webhookUrl = some url)
    (hh1 : startsWithStr ("http://") url = false)
    (hh2 : startsWithStr ("https://") url = false)
    (hredis : startsWithStr ("redis://") url = true)
    (hfs : fs src = some content) :
    ((splitChar '/' url).length ≠ 5 →
      uploadCollWACZ st fs src target completed =
        (uploadEffects st src target, Except.error redisFormatMsg) ∧
      (uploadEffects st src target).all (fun e => !isQueueOp e) = true) ∧
    ((splitChar '/' url).length = 5 →
      uploadCollWACZ st fs src target completed =
        (uploadEffects st src target ++
          [Effect.redisConnect (joinSlash ((splitChar '/' url).take 4)),
           Effect.rpush ((splitChar '/' url).getD 4 "")
             (bodyJson (mkWebhookBody st target
               { path := target, hash := checksumFile [content],
                 bytes := content.length } completed))],
         Except.ok ()) ∧
      countRPush (uploadCollWACZ st fs src target completed).1 = 1) := by
  have hup : uploadFile st fs src target =
      Except.ok (uploadEffects st src target,
        { path := target, hash := checksumFile [content],
          bytes := content.length }) := by
    unfold uploadFile
    rw [hfs]
  have hred : uploadCollWACZ st fs src target completed =
      (if (splitChar '/' url).length ≠ 5 then
        (uploadEffects st src target, Except.error redisFormatMsg)
      else
        (uploadEffects st src target ++
          [Effect.redisConnect (joinSlash ((splitChar '/' url).take 4)),
           Effect.rpush ((splitChar '/' url).getD 4 "")
             (bodyJson (mkWebhookBody st target
               { path := target, hash := checksumFile [content],
                 bytes := content.length } completed))],
         Except.ok ())) := by
    unfold uploadCollWACZ
    rw [hup, hurl]
    simp [hh1, hh2, hredis]
  constructor
  · intro hlen
    refine ⟨?_, rfl⟩
    rw [hred, if_pos hlen]
  · intro hlen
    have hne : ¬((splitChar '/' url).length ≠ 5) := fun hc => hc hlen
    refine ⟨?_, ?_⟩
    · rw [hred, if_neg hne]
    · rw [hred, if_neg hne]
      rfl

/-- C2 witness: `redis://h:6379/0/mykey` splits into five segments and the
dispatch pushes exactly one encoded notification onto `mykey`. -/
theorem c2_redis_webhook_witness :
    demoStorage.webhookUrl = some "redis://h:6379/0/mykey" ∧
    (splitChar '/' "redis://h:6379/0/mykey").length = 5 ∧
    uploadCollWACZ demoStorage demoFS "/crawls/test.wacz" "out.wacz" true =
      (uploadEffects demoStorage "/crawls/test.wacz" "out.wacz" ++
        [Effect.redisConnect (joinSlash ((splitChar '/' "redis://h:6379/0/mykey").take 4)),
         Effect.rpush ((splitChar '/' "redis://h:6379/0/mykey").getD 4 "")
           (bodyJson (mkWebhookBody demoStorage "out.wacz"
             { path := "out.wacz", hash := checksumFile [demoContent],
               bytes := demoContent.length } true))],
       Except.ok ()) ∧
    countRPush (uploadCollWACZ demoStorage demoFS "/crawls/test.wacz" "out.wacz" true).1 = 1 := by
  have h2 := (c2_redis_webhook demoStorage demoFS "/crawls/test.wacz" "out.wacz" true
    "redis://h:6379/0/mykey" demoContent rfl rfl rfl rfl rfl).2 rfl
  exact ⟨rfl, rfl, h2.1, h2.2⟩

/-- C3 counterexample: an `ftp://` webhook URL completes successfully as a
silent no-op — no dispatch effect and no error — refuting the claim that a
URL of any other scheme is rejected by the dispatch step. -/
theorem c3_scheme_counterexample :
    demoStorageFtp.webhookUrl = some "ftp://example.com/x" ∧
    uploadCollWACZ demoStorageFtp demoFS "/crawls/test.wacz" "out.wacz" true =
      (uploadEffects demoStorageFtp "/crawls/test.wacz" "out.wacz", Except.ok ()) ∧
    (uploadEffects demoStorageFtp "/crawls/test.wacz" "out.wacz").all
      (fun e => !isQueueOp e && !isHttpPost e) = true :=
  ⟨rfl, rfl, rfl⟩

/-- C3 (amended): for every configured webhook URL whose scheme is neither
`http://` nor `https://` nor `redis://`, the dispatch step of the
upload-and-notify operation is a silent no-op — it completes without error
and emits neither an HTTP post nor a queue operation. -/
theorem c3_scheme_amended (st : S3Storage) (fs : FS) (src target : String)
    (completed : Bool) (url : String) (content : List Nat)
    (hurl : st.webhookUrl = some url)
    (hh1 : startsWithStr ("http://") url = false)
    (hh2 : startsWithStr ("https://") url = false)
    (hredis : startsWithStr ("redis://") url = false)
    (hfs : fs src = some content) :
    uploadCollWACZ st fs src target completed =
      (uploadEffects st src target, Except.ok ()) ∧
    (uploadEffects st src target).all
      (fun e => !isQueueOp e && !isHttpPost e) = true := by
  have hup : uploadFile st fs src target =
      Except.ok (uploadEffects st src target,
        { path := target, hash := checksumFile [content],
          bytes := content.length }) := by
    unfold uploadFile
    rw [hfs]
  refine ⟨?_, rfl⟩
  unfold uploadCollWACZ
  rw [hup, hurl]
  simp [hh1, hh2, hredis]

/-- C3 witness: the amended no-op behavior at the concrete `ftp://` URL. -/
theorem c3_scheme_amended_witness :
    uploadCollWACZ demoStorageFtp demoFS "/crawls/test.wacz" "out.wacz" true =
      (uploadEffects demoStorageFtp "/crawls/test.wacz" "out.wacz", Except.ok ()) ∧
    (uploadEffects demoStorageFtp "/crawls/test.wacz" "out.wacz").all
      (fun e => !isQueueOp e && !isHttpPost e) = true :=
  c3_scheme_amended demoStorageFtp demoFS "/crawls/test.wacz" "out.wacz" true
    "ftp://example.com/x" demoContent rfl rfl rfl rfl rfl

/-- C6: `uploadFile` returns the resource `{path = remoteName, hash, bytes}`
whose hash is the SHA-256 hex digest of exactly the file's byte content,
computed by a second read of the file that appears in the trace strictly
after the S3 put; re-digesting unmodified content (under any chunking of the
stream) yields the identical hash. -/
theorem c6_upload_digest (st : S3Storage) (fs : FS) (src target : String)
    (content : List Nat) (hfs : fs src = some content) :
    uploadFile st fs src target =
      Except.ok (uploadEffects st src target,
        { path := target, hash := sha256hex content, bytes := content.length }) ∧
    uploadEffects st src target =
      [Effect.fPutObject st.bucketName (st.objectPfx ++ target) src,
       Effect.readFileForHash src, Effect.statFile src] ∧
    (∀ chunksA chunksB : List (List Nat), chunksA.flatten = chunksB.flatten →
      checksumFile chunksA = checksumFile chunksB) := by
  refine ⟨?_, rfl, checksumFile_chunking⟩
  unfold uploadFile
  rw [hfs]
  rfl

/-- C6 witness: the digest round-trip at a concrete three-byte file. -/
theorem c6_upload_digest_witness :
    demoFS "/crawls/test.wacz" = some demoContent ∧
    uploadFile demoStorage demoFS "/crawls/test.wacz" "out.wacz" =
      Except.ok (uploadEffects demoStorage "/crawls/test.wacz" "out.wacz",
        { path := "out.wacz", hash := sha256hex demoContent,
          bytes := demoContent.length }) :=
  ⟨rfl, (c6_upload_digest demoStorage demoFS "/crawls/test.wacz" "out.wacz"
    demoContent rfl).1⟩

/-- C10: filename interpolation substitutes each token only at its first
occurrence — in the template `"@ts-@ts"` only the first `@ts` is expanded and
the second remains a literal in the result (for any timestamp whose stripped
form contains no `@`, which the stripping guarantees for ISO timestamps). -/
theorem c10_interpolate_first_only (env : Env) (crawlId : String)
    (hts : '@' ∉ stripTsChars env.tsRaw.data) :
    interpolateFilename env "@ts-@ts" crawlId =
      String.mk (stripTsChars env.tsRaw.data ++ ('-' :: '@' :: 't' :: 's' :: [])) := by
  show String.mk (replaceFirst ('@' :: ("id".data)) crawlId.data
      (replaceFirst ('@' :: ("hostsuffix".data)) (sliceLast14 env.hostname.data)
        (replaceFirst ('@' :: ("hostname".data)) env.hostname.data
          (replaceFirst ('@' :: ("ts".data)) (stripTsChars env.tsRaw.data)
            ("@ts-@ts".data))))) = _
  have h1 : replaceFirst ('@' :: ("ts".data)) (stripTsChars env.tsRaw.data)
      ("@ts-@ts".data) =
      stripTsChars env.tsRaw.data ++ ('-' :: '@' :: 't' :: 's' :: []) := rfl
  rw [h1]
  rw [replaceFirst_atFree_append ("hostname".data) env.hostname.data _ _ hts]
  rw [show replaceFirst ('@' :: ("hostname".data)) env.hostname.data
      ('-' :: '@' :: 't' :: 's' :: []) = ('-' :: '@' :: 't' :: 's' :: []) from rfl]
  rw [replaceFirst_atFree_append ("hostsuffix".data) (sliceLast14 env.hostname.data)
      _ _ hts]
  rw [show replaceFirst ('@' :: ("hostsuffix".data)) (sliceLast14 env.hostname.data)
      ('-' :: '@' :: 't' :: 's' :: []) = ('-' :: '@' :: 't' :: 's' :: []) from rfl]
  rw [replaceFirst_atFree_append ("id".data) crawlId.data _ _ hts]
  rw [show replaceFirst ('@' :: ("id".data)) crawlId.data
      ('-' :: '@' :: 't' :: 's' :: []) = ('-' :: '@' :: 't' :: 's' :: []) from rfl]

/-- C10 witness: at the fixture clock instant, `"@ts-@ts"` interpolates to
the stripped timestamp followed by the literal `-@ts`. -/
theorem c10_interpolate_first_only_witness :
    ('@' ∉ stripTsChars specEnv.tsRaw.data) ∧
    interpolateFilename specEnv "@ts-@ts" "testhost" =
      String.mk (stripTsChars specEnv.tsRaw.data ++ ('-' :: '@' :: 't' :: 's' :: [])) ∧
    interpolateFilename specEnv "@ts-@ts" "testhost" = "20220315123456789-@ts" :=
  ⟨by decide, c10_interpolate_first_only specEnv "testhost" (by decide), rfl⟩
